import Mathlib

/-!
Shallow embedding of the swap instruction of the Trubin3-AMM program
(`src/programs/amm/src/instructions/swap.rs`).

Balances of SPL token accounts are `u64` values, modelled as `ℕ`; the
128-bit intermediates of the quote computation are modelled as `ℕ`
(they are proved to stay below `2^128` for in-range inputs), and the
`as u64` narrowing cast on the quoted output is modelled explicitly as
`% 2^64`.  The SPL token `transfer` CPI is modelled as a balance move
that fails when the source account holds less than the amount; all
other effects of a failed instruction are rolled back by the runtime,
which the `Except` interface of `swap` reflects.
-/

namespace Amm

/-- Error kinds surfaced by the swap path.  The first six are the
`AmmError` variants raised in `Swap::swap`; `TokenInsufficientFunds`
stands for the failure of the external SPL token transfer primitive
itself (not an `AmmError`). -/
inductive AmmError where
  | PoolLocked
  | InvalidAmount
  | InsufficientBalance
  | NoLiquidityInPool
  | LiquidityLessThanMinimum
  | SlippageExceeded
  | TokenInsufficientFunds
deriving DecidableEq

/-- The pool configuration fields read by `Swap::swap` (`state::Config`):
the administrative lock flag and the fee in basis points (`u16`).  The
seed/bump fields used only to derive the signing authority carry no
balance semantics and are omitted. -/
structure Config where
  locked : Bool
  fee : ℕ
deriving DecidableEq

/-- The balance-bearing state visible to one swap call: the pool
configuration, the two pool vaults and the caller's two token accounts
(all `u64` balances). -/
structure SwapAccounts where
  config : Config
  vaultX : ℕ
  vaultY : ℕ
  userX : ℕ
  userY : ℕ
deriving DecidableEq

/-- Modulus of the `as u64` cast. -/
def U64_MOD : ℕ := 2 ^ 64

/-- Line 71: `(amount_in as u128 * (10_000 - self.config.fee as u128)) / 10_000`. -/
def amount_in_with_fee (fee amountIn : ℕ) : ℕ :=
  amountIn * (10000 - fee) / 10000

/-- Lines 72-73 before the cast: `amount_in_with_fee * vault_dst.amount as u128
/ (vault_src.amount as u128 + amount_in_with_fee)`, as a 128-bit value. -/
def amount_out_raw (vaultSrc vaultDst fee amountIn : ℕ) : ℕ :=
  amount_in_with_fee fee amountIn * vaultDst /
    (vaultSrc + amount_in_with_fee fee amountIn)

/-- Line 73: the quotient narrowed by the `as u64` cast. -/
def amount_out (vaultSrc vaultDst fee amountIn : ℕ) : ℕ :=
  amount_out_raw vaultSrc vaultDst fee amountIn % U64_MOD

/-- Line 82: `(vault_dst.amount as u128 * 1_000_000) / vault_src.amount as u128`. -/
def expected_price (vaultSrc vaultDst : ℕ) : ℕ :=
  vaultDst * 1000000 / vaultSrc

/-- Line 83: `(amount_out as u128 * 1_000_000) / amount_in_with_fee`. -/
def executed_price (amountOut amountInWithFee : ℕ) : ℕ :=
  amountOut * 1000000 / amountInWithFee

/-- Lines 86-90: the slippage actually realized, in basis points, clamped
to `0` when the executed price improves on the expected price. -/
def actual_slippage_bps (expectedPrice executedPrice : ℕ) : ℕ :=
  if executedPrice ≤ expectedPrice then
    (expectedPrice - executedPrice) * 10000 / expectedPrice
  else 0

/-- Lines 59-63: balance of `user_src` selected by the trade direction. -/
def userSrcBal (s : SwapAccounts) (xToY : Bool) : ℕ :=
  if xToY then s.userX else s.userY

/-- Lines 59-63: balance of `vault_src` selected by the trade direction. -/
def vaultSrcBal (s : SwapAccounts) (xToY : Bool) : ℕ :=
  if xToY then s.vaultX else s.vaultY

/-- Lines 59-63: balance of `vault_dst` selected by the trade direction. -/
def vaultDstBal (s : SwapAccounts) (xToY : Bool) : ℕ :=
  if xToY then s.vaultY else s.vaultX

/-- Balance effect of line 100, `self.to_vault(user_src, vault_dst, amount_in)`
(the `Transfer` CPI of lines 110-118): `amount_in` moves from `user_src`
to `vault_dst` — note the destination-side vault receives the input. -/
def to_vault_effect (s : SwapAccounts) (xToY : Bool) (amountIn : ℕ) : SwapAccounts :=
  if xToY then
    { s with userX := s.userX - amountIn, vaultY := s.vaultY + amountIn }
  else
    { s with userY := s.userY - amountIn, vaultX := s.vaultX + amountIn }

/-- Balance effect of line 101, `self.to_user(user_dst, vault_src, amount_out)`
(the signed `Transfer` CPI of lines 127-142): `amount_out` moves from
`vault_src` to `user_dst` — note the source-side vault pays the output. -/
def to_user_effect (s : SwapAccounts) (xToY : Bool) (amountOut : ℕ) : SwapAccounts :=
  if xToY then
    { s with vaultX := s.vaultX - amountOut, userY := s.userY + amountOut }
  else
    { s with vaultY := s.vaultY - amountOut, userX := s.userX + amountOut }

/-- Lines 100-101: settlement.  Each SPL transfer fails if its source
account balance is below the transferred amount; a failure after the
first transfer leaves the sequentially mutated intermediate state. -/
def settle (s : SwapAccounts) (xToY : Bool) (amountIn amountOut : ℕ) :
    Option AmmError × SwapAccounts :=
  if userSrcBal s xToY < amountIn then (some .TokenInsufficientFunds, s)
  else if vaultSrcBal (to_vault_effect s xToY amountIn) xToY < amountOut then
    (some .TokenInsufficientFunds, to_vault_effect s xToY amountIn)
  else (none, to_user_effect (to_vault_effect s xToY amountIn) xToY amountOut)

/-- Lines 55-102, `Swap::swap`, as a sequential run: the result is the
first error raised (or `none` on success) together with the account
state after whatever balance moves executed. -/
def swapRun (s : SwapAccounts) (xToY : Bool) (amountIn slippage : ℕ) :
    Option AmmError × SwapAccounts :=
  if s.config.locked then (some .PoolLocked, s)
  else if amountIn = 0 then (some .InvalidAmount, s)
  else if userSrcBal s xToY < amountIn then (some .InsufficientBalance, s)
  else if vaultSrcBal s xToY = 0 ∨ vaultDstBal s xToY = 0 then
    (some .NoLiquidityInPool, s)
  else if amount_out (vaultSrcBal s xToY) (vaultDstBal s xToY) s.config.fee amountIn = 0 then
    (some .InvalidAmount, s)
  else if vaultDstBal s xToY <
      amount_out (vaultSrcBal s xToY) (vaultDstBal s xToY) s.config.fee amountIn then
    (some .LiquidityLessThanMinimum, s)
  else if expected_price (vaultSrcBal s xToY) (vaultDstBal s xToY) = 0 then
    (some .InvalidAmount, s)
  else if slippage <
      actual_slippage_bps (expected_price (vaultSrcBal s xToY) (vaultDstBal s xToY))
        (executed_price
          (amount_out (vaultSrcBal s xToY) (vaultDstBal s xToY) s.config.fee amountIn)
          (amount_in_with_fee s.config.fee amountIn)) then
    (some .SlippageExceeded, s)
  else
    settle s xToY amountIn
      (amount_out (vaultSrcBal s xToY) (vaultDstBal s xToY) s.config.fee amountIn)

/-- Observable behaviour of one `swap` instruction: the Solana runtime
rolls the whole instruction back on any error, so an error carries no
state change. -/
def swap (s : SwapAccounts) (xToY : Bool) (amountIn slippage : ℕ) :
    Except AmmError SwapAccounts :=
  match swapRun s xToY amountIn slippage with
  | (some e, _) => .error e
  | (none, s') => .ok s'

/-- Written from the spec's words (§4.1):
`amountInAfterFee = floor(amountIn * (10000 - pool.feeBasisPoints) / 10000)`. -/
def spec_amountInAfterFee (feeBasisPoints amountIn : ℕ) : ℕ :=
  amountIn * (10000 - feeBasisPoints) / 10000

/-- Written from the spec's words (§4.1):
`amountOut = floor(amountInAfterFee * reserveDst.balance /
(reserveSrc.balance + amountInAfterFee))`. -/
def spec_amountOut (reserveSrc reserveDst feeBasisPoints amountIn : ℕ) : ℕ :=
  spec_amountInAfterFee feeBasisPoints amountIn * reserveDst /
    (reserveSrc + spec_amountInAfterFee feeBasisPoints amountIn)

/-! Helper lemmas about the quote arithmetic. -/

lemma amount_in_with_fee_le (fee a : ℕ) : amount_in_with_fee fee a ≤ a := by
  unfold amount_in_with_fee
  calc a * (10000 - fee) / 10000 ≤ a * 10000 / 10000 :=
        Nat.div_le_div_right (Nat.mul_le_mul_left a (Nat.sub_le _ _))
    _ = a := Nat.mul_div_cancel a (by norm_num)

lemma amount_out_raw_le (S D fee a : ℕ) (hS : 0 < S) :
    amount_out_raw S D fee a ≤ D := by
  unfold amount_out_raw
  calc amount_in_with_fee fee a * D / (S + amount_in_with_fee fee a)
      ≤ (S + amount_in_with_fee fee a) * D / (S + amount_in_with_fee fee a) :=
        Nat.div_le_div_right (Nat.mul_le_mul_right D (Nat.le_add_left _ _))
    _ = D := Nat.mul_div_cancel_left D (by omega)

lemma amount_out_raw_lt (S D fee a : ℕ) (hS : 0 < S) (hD : 0 < D) :
    amount_out_raw S D fee a < D := by
  unfold amount_out_raw
  have hpos : 0 < S + amount_in_with_fee fee a := by omega
  rw [Nat.div_lt_iff_lt_mul hpos]
  nlinarith [Nat.mul_pos hD hS]

lemma amount_out_eq_raw (S D fee a : ℕ) (hS : 0 < S) (hD : D < U64_MOD) :
    amount_out S D fee a = amount_out_raw S D fee a :=
  Nat.mod_eq_of_lt (lt_of_le_of_lt (amount_out_raw_le S D fee a hS) hD)

lemma div_le_div_cross {a b c d : ℕ} (hb : 0 < b) (hd : 0 < d)
    (h : a * d ≤ c * b) : a / b ≤ c / d := by
  rw [Nat.le_div_iff_mul_le hd]
  have h1 : a / b * d * b ≤ c * b :=
    calc a / b * d * b = a / b * b * d := by ring
      _ ≤ a * d := Nat.mul_le_mul_right d (Nat.div_mul_le_self a b)
      _ ≤ c * b := h
  exact Nat.le_of_mul_le_mul_right h1 hb

lemma curve_mono_in_f {S D f1 f2 : ℕ} (hf : f1 ≤ f2) :
    f1 * D / (S + f1) ≤ f2 * D / (S + f2) := by
  rcases Nat.eq_zero_or_pos (S + f1) with h0 | hpos
  · have hf1 : f1 = 0 := by omega
    simp [hf1]
  · apply div_le_div_cross hpos (by omega)
    have h1 : f1 * D * S ≤ f2 * D * S :=
      Nat.mul_le_mul_right S (Nat.mul_le_mul_right D hf)
    calc f1 * D * (S + f2) = f1 * D * S + f1 * D * f2 := by ring
      _ ≤ f2 * D * S + f1 * D * f2 := Nat.add_le_add_right h1 _
      _ = f2 * D * (S + f1) := by ring

lemma amount_in_with_fee_mono {fee a1 a2 : ℕ} (h : a1 ≤ a2) :
    amount_in_with_fee fee a1 ≤ amount_in_with_fee fee a2 :=
  Nat.div_le_div_right (Nat.mul_le_mul_right _ h)

lemma amount_in_with_fee_anti {fee1 fee2 a : ℕ} (h : fee1 ≤ fee2) :
    amount_in_with_fee fee2 a ≤ amount_in_with_fee fee1 a :=
  Nat.div_le_div_right (Nat.mul_le_mul_left _ (Nat.sub_le_sub_left h 10000))

lemma amount_out_raw_mono_in {S D fee a1 a2 : ℕ} (h : a1 ≤ a2) :
    amount_out_raw S D fee a1 ≤ amount_out_raw S D fee a2 :=
  curve_mono_in_f (amount_in_with_fee_mono h)

lemma amount_out_raw_anti_fee {S D fee1 fee2 a : ℕ} (h : fee1 ≤ fee2) :
    amount_out_raw S D fee2 a ≤ amount_out_raw S D fee1 a :=
  curve_mono_in_f (amount_in_with_fee_anti h)

/-! Helper lemmas about the control flow of `swapRun`. -/

lemma settle_fst (s : SwapAccounts) (xToY : Bool) (ai ao : ℕ) :
    (settle s xToY ai ao).1 = none ∨
      (settle s xToY ai ao).1 = some AmmError.TokenInsufficientFunds := by
  unfold settle
  split
  · right; rfl
  · split
    · right; rfl
    · left; rfl

lemma swapRun_cases (s : SwapAccounts) (xToY : Bool) (amountIn slippage : ℕ) :
    (swapRun s xToY amountIn slippage).2 = s ∨
    (swapRun s xToY amountIn slippage).1 = some AmmError.TokenInsufficientFunds ∨
    (swapRun s xToY amountIn slippage).1 = none := by
  unfold swapRun settle
  split
  · left; rfl
  · split
    · left; rfl
    · split
      · left; rfl
      · split
        · left; rfl
        · split
          · left; rfl
          · split
            · left; rfl
            · split
              · left; rfl
              · split
                · left; rfl
                · -- settle: its first transfer's balance check coincides with the
                  -- `InsufficientBalance` precondition already split above, so only
                  -- the second transfer's balance check remains.
                  split
                  · right; left; rfl
                  · right; right; rfl

lemma swapRun_fst_ne_llm (s : SwapAccounts) (xToY : Bool) (amountIn slippage : ℕ) :
    (swapRun s xToY amountIn slippage).1 ≠ some AmmError.LiquidityLessThanMinimum := by
  unfold swapRun
  split
  · simp
  · split
    · simp
    · split
      · simp
      · split
        · simp
        · split
          · simp
          · split
            · rename_i hlocked hA hbal hno hzero hlt
              exfalso
              push_neg at hno
              have hS : 0 < vaultSrcBal s xToY := Nat.pos_of_ne_zero hno.1
              have h1 : amount_out (vaultSrcBal s xToY) (vaultDstBal s xToY)
                  s.config.fee amountIn ≤
                  amount_out_raw (vaultSrcBal s xToY) (vaultDstBal s xToY)
                    s.config.fee amountIn := Nat.mod_le _ _
              have h2 := amount_out_raw_le (vaultSrcBal s xToY) (vaultDstBal s xToY)
                s.config.fee amountIn hS
              omega
            · split
              · simp
              · split
                · simp
                · rcases settle_fst s xToY amountIn
                    (amount_out (vaultSrcBal s xToY) (vaultDstBal s xToY)
                      s.config.fee amountIn) with h | h <;> simp [h]

/-! Claim theorems. -/

/-- C1: the claim states that a fully validated swap settles by moving
`amountIn` from the user's source account into the source-side reserve and
`amountOut` from the destination-side reserve to the user.  The code does
the opposite with the vaults: at the concrete input below (reserves
`X = Y = 1000000`, fee 30 bps, `amountIn = 10000` traded X→Y, quote
`amountOut = 9871`), the successful swap credits `amountIn` to the
destination-side vault `vaultY` and debits `amountOut` from the
source-side vault `vaultX`. -/
theorem swap_settles_into_wrong_vaults :
    amount_out 1000000 1000000 30 10000 = 9871 ∧
    swap ⟨⟨false, 30⟩, 1000000, 1000000, 1000000, 0⟩ true 10000 100 =
      .ok ⟨⟨false, 30⟩, 1000000 - 9871, 1000000 + 10000, 1000000 - 10000, 0 + 9871⟩ :=
  ⟨rfl, rfl⟩

/-- C4: the claim states that every successful swap keeps the product of the
two reserve balances from decreasing.  At the concrete input below
(`vaultX = 100`, `vaultY = 200`, zero fee, `amountIn = 1` traded X→Y,
slippage tolerance 10000 bps) the swap succeeds and the reserve product
drops from `100 * 200 = 20000` to `99 * 201 = 19899`, because the code's
settlement credits the input to the destination-side vault and debits the
output from the source-side vault. -/
theorem swap_product_invariant_violated :
    swap ⟨⟨false, 0⟩, 100, 200, 10, 0⟩ true 1 10000 =
      .ok ⟨⟨false, 0⟩, 99, 201, 9, 1⟩ ∧
    99 * 201 < 100 * 200 :=
  ⟨rfl, by norm_num⟩

/-- C5: the four preconditions of `Swap::swap` are checked in order —
locked pool, zero amount, insufficient user balance, empty reserve — and
each failure surfaces its own distinct error before any later check runs. -/
theorem swap_precondition_order (s : SwapAccounts) (xToY : Bool)
    (amountIn slippage : ℕ) :
    (s.config.locked = true → swap s xToY amountIn slippage = .error .PoolLocked) ∧
    (s.config.locked = false → amountIn = 0 →
      swap s xToY amountIn slippage = .error .InvalidAmount) ∧
    (s.config.locked = false → amountIn ≠ 0 → userSrcBal s xToY < amountIn →
      swap s xToY amountIn slippage = .error .InsufficientBalance) ∧
    (s.config.locked = false → amountIn ≠ 0 → amountIn ≤ userSrcBal s xToY →
      (vaultSrcBal s xToY = 0 ∨ vaultDstBal s xToY = 0) →
      swap s xToY amountIn slippage = .error .NoLiquidityInPool) := by
  refine ⟨?_, ?_, ?_, ?_⟩
  · intro h
    unfold swap swapRun
    rw [if_pos h]
  · intro h hA
    unfold swap swapRun
    rw [if_neg (by simp [h]), if_pos hA]
  · intro h hA hlt
    unfold swap swapRun
    rw [if_neg (by simp [h]), if_neg hA, if_pos hlt]
  · intro h hA hle hor
    unfold swap swapRun
    rw [if_neg (by simp [h]), if_neg hA, if_neg (Nat.not_lt.mpr hle), if_pos hor]

/-- Witness for C5: each of the four errors at a concrete input. -/
theorem swap_precondition_order_witness :
    swap ⟨⟨true, 30⟩, 1, 1, 1, 1⟩ true 5 0 = .error .PoolLocked ∧
    swap ⟨⟨false, 30⟩, 1, 1, 1, 1⟩ true 0 0 = .error .InvalidAmount ∧
    swap ⟨⟨false, 30⟩, 1, 1, 1, 1⟩ true 5 0 = .error .InsufficientBalance ∧
    swap ⟨⟨false, 30⟩, 0, 1, 5, 1⟩ true 5 0 = .error .NoLiquidityInPool :=
  ⟨(swap_precondition_order ⟨⟨true, 30⟩, 1, 1, 1, 1⟩ true 5 0).1 rfl,
   (swap_precondition_order ⟨⟨false, 30⟩, 1, 1, 1, 1⟩ true 0 0).2.1 rfl rfl,
   (swap_precondition_order ⟨⟨false, 30⟩, 1, 1, 1, 1⟩ true 5 0).2.2.1 rfl
     (by decide) (by decide),
   (swap_precondition_order ⟨⟨false, 30⟩, 0, 1, 5, 1⟩ true 5 0).2.2.2 rfl
     (by decide) (by decide) (by decide)⟩

/-- C7 counterexample: the claim states that `amountIn = 0` is rejected
with `InvalidAmount` even on a locked pool; on a locked pool the code
instead rejects with `PoolLocked`, because the lock check runs first. -/
theorem zero_amount_locked_pool_counterexample :
    swap ⟨⟨true, 30⟩, 1000000, 1000000, 1000000, 0⟩ true 0 100 =
      .error .PoolLocked ∧
    swap ⟨⟨true, 30⟩, 1000000, 1000000, 1000000, 0⟩ true 0 100 ≠
      .error .InvalidAmount := by
  refine ⟨rfl, ?_⟩
  intro h
  rw [show swap ⟨⟨true, 30⟩, 1000000, 1000000, 1000000, 0⟩ true 0 100 =
    .error .PoolLocked from rfl] at h
  injection h with h'
  cases h'

/-- C7 amended: on every unlocked pool, for every direction, balance
configuration and slippage tolerance, a swap called with `amountIn = 0`
fails with `InvalidAmount`; a locked pool instead fails with `PoolLocked`. -/
theorem zero_amount_rejected_when_unlocked (s : SwapAccounts) (xToY : Bool)
    (slippage : ℕ) (h : s.config.locked = false) :
    swap s xToY 0 slippage = .error .InvalidAmount := by
  unfold swap swapRun
  rw [if_neg (by simp [h]), if_pos rfl]

/-- Witness for the amended C7. -/
theorem zero_amount_rejected_when_unlocked_witness :
    swap ⟨⟨false, 30⟩, 5, 5, 5, 5⟩ true 0 7 = .error .InvalidAmount :=
  zero_amount_rejected_when_unlocked ⟨⟨false, 30⟩, 5, 5, 5, 5⟩ true 7 rfl

/-- C6: for positive reserves the constant-product quote is strictly below
the destination reserve, and consequently `Swap::swap` can never return
`LiquidityLessThanMinimum`: the reserve-sufficiency guard is unreachable. -/
theorem swap_liquidity_guard_unreachable :
    (∀ S D fee a : ℕ, 0 < S → 0 < D → amount_out_raw S D fee a < D) ∧
    (∀ (s : SwapAccounts) (xToY : Bool) (amountIn slippage : ℕ),
      swap s xToY amountIn slippage ≠ .error .LiquidityLessThanMinimum) := by
  constructor
  · exact fun S D fee a hS hD => amount_out_raw_lt S D fee a hS hD
  · intro s xToY amountIn slippage
    have h := swapRun_fst_ne_llm s xToY amountIn slippage
    unfold swap
    rcases hrun : swapRun s xToY amountIn slippage with ⟨oe, t⟩
    rw [hrun] at h
    cases oe with
    | none => simp
    | some e =>
      simp only [ne_eq, Except.error.injEq]
      intro he
      exact h (by rw [he])

/-- Witness for C6. -/
theorem swap_liquidity_guard_unreachable_witness :
    amount_out_raw 1000000 1000000 30 10000 < 1000000 ∧
    swap ⟨⟨false, 30⟩, 1000000, 1000000, 1000000, 0⟩ true 10000 100 ≠
      .error .LiquidityLessThanMinimum :=
  ⟨swap_liquidity_guard_unreachable.1 1000000 1000000 30 10000 (by decide) (by decide),
   swap_liquidity_guard_unreachable.2 ⟨⟨false, 30⟩, 1000000, 1000000, 1000000, 0⟩
     true 10000 100⟩

/-- C2: for every input passing the preconditions (pool unlocked, nonzero
`amountIn`, sufficient user balance, positive reserves), under the pool
invariant `fee ≤ 10000` and the `u64` range of `amountIn` and of the
destination reserve, the quote of `Swap::swap` equals the spec formulas
`amountInAfterFee = floor(amountIn * (10000 - fee) / 10000)` and
`amountOut = floor(amountInAfterFee * reserveDst / (reserveSrc +
amountInAfterFee))`, and both multiply-before-divide intermediates fit
in 128 bits. -/
theorem swap_quote_matches_spec_formula (s : SwapAccounts) (xToY : Bool)
    (amountIn : ℕ) (_hlock : s.config.locked = false) (_hA : amountIn ≠ 0)
    (_hbal : amountIn ≤ userSrcBal s xToY)
    (hS : 0 < vaultSrcBal s xToY) (_hD : 0 < vaultDstBal s xToY)
    (_hfee : s.config.fee ≤ 10000) (hIn : amountIn < U64_MOD)
    (hDu : vaultDstBal s xToY < U64_MOD) :
    amount_in_with_fee s.config.fee amountIn =
      spec_amountInAfterFee s.config.fee amountIn ∧
    amount_out (vaultSrcBal s xToY) (vaultDstBal s xToY) s.config.fee amountIn =
      spec_amountOut (vaultSrcBal s xToY) (vaultDstBal s xToY) s.config.fee amountIn ∧
    amountIn * (10000 - s.config.fee) < 2 ^ 128 ∧
    amount_in_with_fee s.config.fee amountIn * vaultDstBal s xToY < 2 ^ 128 := by
  refine ⟨rfl, ?_, ?_, ?_⟩
  · rw [amount_out_eq_raw _ _ _ _ hS hDu]
    rfl
  · calc amountIn * (10000 - s.config.fee) ≤ amountIn * 10000 :=
          Nat.mul_le_mul_left amountIn (Nat.sub_le _ _)
      _ < U64_MOD * 10000 := Nat.mul_lt_mul_of_lt_of_le hIn (le_refl 10000) (by norm_num)
      _ < 2 ^ 128 := by norm_num [U64_MOD]
  · have hf : amount_in_with_fee s.config.fee amountIn < U64_MOD :=
      lt_of_le_of_lt (amount_in_with_fee_le _ _) hIn
    calc amount_in_with_fee s.config.fee amountIn * vaultDstBal s xToY
        < U64_MOD * U64_MOD :=
          Nat.mul_lt_mul_of_lt_of_le hf (le_of_lt hDu) (by norm_num [U64_MOD])
      _ = 2 ^ 128 := by norm_num [U64_MOD]

/-- Witness for C2 at the spec's worked example. -/
theorem swap_quote_matches_spec_formula_witness :
    amount_in_with_fee 30 10000 = spec_amountInAfterFee 30 10000 ∧
    amount_out 1000000 1000000 30 10000 = spec_amountOut 1000000 1000000 30 10000 ∧
    10000 * (10000 - 30) < 2 ^ 128 ∧
    amount_in_with_fee 30 10000 * 1000000 < 2 ^ 128 :=
  swap_quote_matches_spec_formula ⟨⟨false, 30⟩, 1000000, 1000000, 1000000, 0⟩ true
    10000 rfl (by decide) (by decide) (by decide) (by decide) (by decide) (by decide)
    (by decide)

/-- C3: once every earlier check has passed, the slippage stage of
`Swap::swap` fails with `InvalidAmount` exactly on a zero expected price,
and otherwise fails with `SlippageExceeded` exactly when the realized
slippage (clamped to zero when the executed price beats the expected
price) exceeds the caller's tolerance in basis points — so a swap whose
slippage equals the tolerance passes this check. -/
theorem swap_slippage_check_characterization (s : SwapAccounts) (xToY : Bool)
    (amountIn slippage : ℕ) (hlock : s.config.locked = false) (hA : amountIn ≠ 0)
    (hbal : amountIn ≤ userSrcBal s xToY)
    (hS : 0 < vaultSrcBal s xToY) (hD : 0 < vaultDstBal s xToY)
    (hout : amount_out (vaultSrcBal s xToY) (vaultDstBal s xToY)
      s.config.fee amountIn ≠ 0)
    (hguard : amount_out (vaultSrcBal s xToY) (vaultDstBal s xToY)
      s.config.fee amountIn ≤ vaultDstBal s xToY) :
    (expected_price (vaultSrcBal s xToY) (vaultDstBal s xToY) = 0 →
      swap s xToY amountIn slippage = .error .InvalidAmount) ∧
    (expected_price (vaultSrcBal s xToY) (vaultDstBal s xToY) ≠ 0 →
      (swap s xToY amountIn slippage = .error .SlippageExceeded ↔
        slippage < actual_slippage_bps
          (expected_price (vaultSrcBal s xToY) (vaultDstBal s xToY))
          (executed_price
            (amount_out (vaultSrcBal s xToY) (vaultDstBal s xToY)
              s.config.fee amountIn)
            (amount_in_with_fee s.config.fee amountIn)))) := by
  have hlock' : ¬(s.config.locked = true) := by simp [hlock]
  have hbal' : ¬(userSrcBal s xToY < amountIn) := Nat.not_lt.mpr hbal
  have hor : ¬(vaultSrcBal s xToY = 0 ∨ vaultDstBal s xToY = 0) := by omega
  have hguard' : ¬(vaultDstBal s xToY < amount_out (vaultSrcBal s xToY)
      (vaultDstBal s xToY) s.config.fee amountIn) := Nat.not_lt.mpr hguard
  constructor
  · intro hep
    unfold swap swapRun
    rw [if_neg hlock', if_neg hA, if_neg hbal', if_neg hor, if_neg hout,
      if_neg hguard', if_pos hep]
  · intro hep
    by_cases hsl : slippage < actual_slippage_bps
        (expected_price (vaultSrcBal s xToY) (vaultDstBal s xToY))
        (executed_price
          (amount_out (vaultSrcBal s xToY) (vaultDstBal s xToY)
            s.config.fee amountIn)
          (amount_in_with_fee s.config.fee amountIn))
    · refine ⟨fun _ => hsl, fun _ => ?_⟩
      unfold swap swapRun
      rw [if_neg hlock', if_neg hA, if_neg hbal', if_neg hor, if_neg hout,
        if_neg hguard', if_neg hep, if_pos hsl]
    · refine ⟨fun hres => ?_, fun hcon => absurd hcon hsl⟩
      exfalso
      have hrun : swapRun s xToY amountIn slippage =
          settle s xToY amountIn
            (amount_out (vaultSrcBal s xToY) (vaultDstBal s xToY)
              s.config.fee amountIn) := by
        unfold swapRun
        rw [if_neg hlock', if_neg hA, if_neg hbal', if_neg hor, if_neg hout,
          if_neg hguard', if_neg hep, if_neg hsl]
      unfold swap at hres
      rw [hrun] at hres
      have hf := settle_fst s xToY amountIn
        (amount_out (vaultSrcBal s xToY) (vaultDstBal s xToY)
          s.config.fee amountIn)
      rcases hset : settle s xToY amountIn
          (amount_out (vaultSrcBal s xToY) (vaultDstBal s xToY)
            s.config.fee amountIn) with ⟨oe, t⟩
      rw [hset] at hres hf
      rcases hf with hf | hf
      · simp only at hf
        subst hf
        simp at hres
      · simp only at hf
        subst hf
        simp only at hres
        injection hres with h'
        cases h'

/-- Witness for C3: at the spec's worked example the realized slippage is
99 bps, so a tolerance of 50 bps fails with `SlippageExceeded`. -/
theorem swap_slippage_check_characterization_witness :
    swap ⟨⟨false, 30⟩, 1000000, 1000000, 1000000, 0⟩ true 10000 50 =
      .error .SlippageExceeded :=
  ((swap_slippage_check_characterization
      ⟨⟨false, 30⟩, 1000000, 1000000, 1000000, 0⟩ true 10000 50 rfl (by decide)
      (by decide) (by decide) (by decide) (by decide) (by decide)).2
    (by decide)).mpr (by decide)

/-- C8 counterexample: the claimed strict monotonicity fails on the code's
integer arithmetic.  With reserves `2/2` and zero fee, raising `amountIn`
from 2 to 3 leaves `amountOut` at 1; with reserves `1000000/1000000` and
`amountIn = 10000`, raising the fee from 0 to 1 basis point leaves
`amountOut` at 9900. -/
theorem amount_out_not_strictly_monotone :
    amount_out 2 2 0 2 = 1 ∧ amount_out 2 2 0 3 = 1 ∧
    amount_out 1000000 1000000 0 10000 = 9900 ∧
    amount_out 1000000 1000000 1 10000 = 9900 :=
  ⟨rfl, rfl, rfl, rfl⟩

/-- C8 amended: holding a positive source reserve and a `u64`-ranged
destination reserve fixed, `amountOut` is monotonically non-decreasing in
`amountIn` and monotonically non-increasing in `feeBasisPoints`
(strictness fails because both divisions round down). -/
theorem amount_out_monotone (S D fee fee1 fee2 a a1 a2 : ℕ)
    (hS : 0 < S) (hDu : D < U64_MOD) :
    (a1 ≤ a2 → amount_out S D fee a1 ≤ amount_out S D fee a2) ∧
    (fee1 ≤ fee2 → amount_out S D fee2 a ≤ amount_out S D fee1 a) := by
  have hm : ∀ f a', amount_out S D f a' = amount_out_raw S D f a' :=
    fun f a' => amount_out_eq_raw S D f a' hS hDu
  constructor
  · intro h
    rw [hm, hm]
    exact amount_out_raw_mono_in h
  · intro h
    rw [hm, hm]
    exact amount_out_raw_anti_fee h

/-- Witness for the amended C8. -/
theorem amount_out_monotone_witness :
    amount_out 1000000 1000000 30 10000 ≤ amount_out 1000000 1000000 30 20000 ∧
    amount_out 1000000 1000000 50 10000 ≤ amount_out 1000000 1000000 30 10000 :=
  ⟨(amount_out_monotone 1000000 1000000 30 30 50 10000 10000 20000
      (by decide) (by decide)).1 (by decide),
   (amount_out_monotone 1000000 1000000 30 30 50 10000 10000 20000
      (by decide) (by decide)).2 (by decide)⟩

/-- C9: whenever the sequential run of `Swap::swap` stops with one of the
six `AmmError`s raised by its precondition, quote or slippage checks, no
account balance has changed: every validation strictly precedes both
transfer calls.  (Only a failure of the second SPL transfer itself — a
`TokenInsufficientFunds` error of the external primitive — can leave a
partially mutated sequential state, which the host ledger rolls back.) -/
theorem swap_check_errors_preserve_state (s : SwapAccounts) (xToY : Bool)
    (amountIn slippage : ℕ) (e : AmmError)
    (h : (swapRun s xToY amountIn slippage).1 = some e)
    (hne : e ≠ AmmError.TokenInsufficientFunds) :
    (swapRun s xToY amountIn slippage).2 = s := by
  rcases swapRun_cases s xToY amountIn slippage with hc | hc | hc
  · exact hc
  · rw [h] at hc
    injection hc with h'
    exact absurd h' hne
  · rw [h] at hc
    exact Option.noConfusion hc

/-- Witness for C9: a locked pool leaves the state untouched. -/
theorem swap_check_errors_preserve_state_witness :
    (swapRun ⟨⟨true, 30⟩, 7, 8, 9, 10⟩ true 5 0).2 = ⟨⟨true, 30⟩, 7, 8, 9, 10⟩ :=
  swap_check_errors_preserve_state ⟨⟨true, 30⟩, 7, 8, 9, 10⟩ true 5 0
    .PoolLocked rfl (by decide)

/-- C10: every division on the swap path has a positive divisor when it
executes: the fee divisor is the constant `10000`; the quote divisor
`reserveSrc + amountInAfterFee` and the expected-price divisor
`reserveSrc` are positive once the `NoLiquidityInPool` check has passed;
and the executed-price divisor `amountInAfterFee` is positive whenever
the computed `amountOut` is nonzero, i.e. whenever the preceding
`InvalidAmount` check on the output did not already reject the call. -/
theorem swap_divisors_positive (S D fee amountIn : ℕ) (hS : 0 < S) :
    0 < (10000 : ℕ) ∧
    0 < S + amount_in_with_fee fee amountIn ∧
    (amount_out S D fee amountIn ≠ 0 → 0 < amount_in_with_fee fee amountIn) := by
  refine ⟨by norm_num, by omega, ?_⟩
  intro hout
  by_contra hf
  have hf0 : amount_in_with_fee fee amountIn = 0 := by omega
  apply hout
  unfold amount_out amount_out_raw
  rw [hf0]
  simp

/-- Witness for C10. -/
theorem swap_divisors_positive_witness :
    0 < amount_in_with_fee 30 10000 :=
  (swap_divisors_positive 1000000 1000000 30 10000 (by decide)).2.2 (by decide)

end Amm
